import Mathlib

/-!
Verification of the crypto Telegram bot (src/main.py).

Shallow embedding of the bot's command handlers, HTTP helpers and chart
renderer.  Each handler is translated as a pure function of its inputs:
the command argument list and the (single) HTTP response the handler's one
`requests.get` call would observe.  Python exceptions are modelled
explicitly; an exception that no `except` clause of the handler catches is
recorded in the outcome as `escaped`.
-/

namespace CryptoBot

/-- JSON values as produced by `response.json()`.  Numbers are modelled as
integers: the program never does arithmetic on them, it only interpolates
them into reply strings. -/
inductive Json where
  | null : Json
  | bool : Bool → Json
  | num : Int → Json
  | str : String → Json
  | arr : List Json → Json
  | obj : List (String × Json) → Json
deriving Repr

/-- The Python exception classes that can arise inside the handlers. -/
inductive PyExc where
  | indexError
  | valueError
  | keyError
  | typeError
  | attributeError
  | requestException
deriving DecidableEq, Repr

/-- Outcome of one `requests.get` call: a connection-level failure
(`requests.exceptions.RequestException` raised by `get` itself), or a
response carrying a status code and a body.  `body = none` means the body
does not parse as JSON (`response.json()` raises
`requests.exceptions.JSONDecodeError`, which subclasses both `ValueError`
and `RequestException`). -/
inductive FetchResult where
  | transportError : FetchResult
  | response (status : Nat) (body : Option Json) : FetchResult
deriving Repr

/-- One row of the OHLC table built at src/main.py:42
(`pd.DataFrame(data, columns=['timestamp','open','high','low','close'])`). -/
structure OhlcRow where
  ts : Int
  op : Int
  hi : Int
  lo : Int
  cl : Int
deriving DecidableEq, Repr

/-- The pandas DataFrame produced by `get_historical_data`: its rows
(indexed by timestamp after `set_index`, src/main.py:44) together with the
list of data columns present.  The column list is what
`df.ta.macd(append=True)` / `df.ta.rsi(append=True)` extend in place. -/
structure DataFrame where
  rows : List OhlcRow
  cols : List String
deriving DecidableEq, Repr

/-- The image bytes produced by `mpf.plot(..., savefig=buf)`
(src/main.py:76-86), abstracted as a function of the plotted frame and the
chart title. -/
structure ChartImage where
  frame : DataFrame
  title : String
deriving DecidableEq, Repr

/-- A reply sent through the messaging transport: `reply_text` or
`send_photo`. -/
inductive Reply where
  | text (s : String)
  | photo (img : ChartImage) (caption : String)
deriving Repr

/-- Observable outcome of one handler invocation: the replies sent (in
order), the URLs of the HTTP requests issued (in order), and the exception
that escaped the handler uncaught, if any. -/
structure Outcome where
  replies : List Reply
  calls : List String
  escaped : Option PyExc
deriving Repr

/-- Python `str.lower()` (the coin names involved are ASCII): lower-case
every character.  Defined over the character list so that it evaluates by
kernel reduction. -/
def pyLower (s : String) : String := String.mk (s.data.map Char.toLower)

/-- Python `str.capitalize()`: first character upper-cased, the rest
lower-cased. -/
def pyCapitalize (s : String) : String :=
  match s.data with
  | [] => ""
  | c :: cs => String.mk (c.toUpper :: cs.map Char.toLower)

/-- A single-quote character, for Python `repr` of strings. -/
def sq : String := String.singleton (Char.ofNat 39)

mutual
/-- Python `repr()` of a parsed-JSON value. -/
def pyRepr : Json → String
  | .null => "None"
  | .bool true => "True"
  | .bool false => "False"
  | .num n => toString n
  | .str s => sq ++ s ++ sq
  | .arr xs => "[" ++ pyReprArr xs ++ "]"
  | .obj fs => "\x7b" ++ pyReprObj fs ++ "\x7d"

/-- Comma-separated `repr`s of list elements. -/
def pyReprArr : List Json → String
  | [] => ""
  | [x] => pyRepr x
  | x :: y :: xs => pyRepr x ++ ", " ++ pyReprArr (y :: xs)

/-- Comma-separated `key: value` pairs of a dict. -/
def pyReprObj : List (String × Json) → String
  | [] => ""
  | [(k, v)] => sq ++ k ++ sq ++ ": " ++ pyRepr v
  | (k, v) :: y :: xs => sq ++ k ++ sq ++ ": " ++ pyRepr v ++ ", " ++ pyReprObj (y :: xs)
end

/-- Python `str()` of a parsed-JSON value, as used by f-string
interpolation. -/
def pyStr : Json → String
  | .str s => s
  | j => pyRepr j

/-- Python truthiness of a parsed-JSON value (`if not articles:`). -/
def pyTruthy : Json → Bool
  | .null => false
  | .bool b => b
  | .num n => n != 0
  | .str s => s != ""
  | .arr xs => !xs.isEmpty
  | .obj fs => !fs.isEmpty

/-- Python subscripting `j[key]` with a string key on a parsed-JSON value:
`KeyError` when the dict lacks the key, `TypeError` when the value is not a
dict. -/
def pySubscript (j : Json) (key : String) : Except PyExc Json :=
  match j with
  | .obj fs =>
    match fs.lookup key with
    | some v => .ok v
    | none => .error .keyError
  | _ => .error .typeError

/-- src/main.py:24-28: the static coin registry `SUPPORTED_COINS`. -/
def SUPPORTED_COINS : List (String × String) :=
  [("bitcoin", "bitcoin"), ("ethereum", "ethereum"), ("solana", "solana")]

/-! Fixed reply strings (verbatim from src/main.py). -/

/-- src/main.py:109/136/172: the unknown-coin reply, identical in all three
parameterized handlers. -/
def unknownCoinMsg : String :=
  "❌ Unbekannte Kryptowährung. Bitte nutze Bitcoin, Ethereum oder Solana."

/-- src/main.py:125: the /preis usage hint. -/
def priceUsageMsg : String :=
  "⚠️ Bitte gib eine Kryptowährung an. Beispiel: /preis bitcoin"

/-- src/main.py:128: the /preis upstream-failure reply. -/
def priceFetchErrorMsg : String :=
  "Fehler: Konnte die Preisdaten nicht abrufen. Versuche es später erneut."

/-- src/main.py:121: the successful price reply. -/
def priceReplyMsg (coin : String) (price : Json) : String :=
  "Der aktuelle Preis für " ++ pyCapitalize coin ++ " ist: **" ++ pyStr price ++ " €**"

/-- src/main.py:160: the /nachrichten usage hint. -/
def newsUsageMsg : String :=
  "⚠️ Bitte gib eine Kryptowährung an. Beispiel: /nachrichten ethereum"

/-- src/main.py:164: the /nachrichten upstream-failure reply. -/
def newsFetchErrorMsg : String :=
  "Fehler: Konnte die Nachrichten nicht abrufen. Überprüfe deinen API-Key oder versuche es später."

/-- src/main.py:147-148: the zero-articles reply. -/
def noNewsMsg (coin : String) : String :=
  "Keine aktuellen deutschen Nachrichten für " ++ pyCapitalize coin ++ " gefunden."

/-- src/main.py:151: the header of a successful news reply. -/
def newsHeaderMsg (coin : String) : String :=
  "📰 Neueste Nachrichten für " ++ pyCapitalize coin ++ ":\n\n"

/-- src/main.py:201: the /chart usage hint. -/
def chartUsageMsg : String :=
  "⚠️ Bitte gib eine Kryptowährung an. Beispiel: /chart bitcoin"

/-- src/main.py:177-178: the /chart please-wait acknowledgement. -/
def chartWaitMsg (coin : String) : String :=
  "⏳ Erstelle Chart für " ++ pyCapitalize coin ++ ", bitte einen Moment Geduld..."

/-- src/main.py:184: the /chart missing-data reply. -/
def chartNoDataMsg : String :=
  "Fehler: Konnte keine historischen Daten für den Chart abrufen."

/-- src/main.py:198: the /chart render-failure reply. -/
def chartRenderErrorMsg : String :=
  "Fehler: Der Chart konnte nicht erstellt werden."

/-- src/main.py:204: the /chart generic unexpected-error reply. -/
def chartGenericErrorMsg : String :=
  "Ein unerwarteter Fehler ist aufgetreten. Bitte versuche es später erneut."

/-- src/main.py:195: the caption of a sent chart photo. -/
def chartCaptionMsg (coin : String) : String :=
  "Technischer Chart für " ++ pyCapitalize coin ++ " (90 Tage)"

/-! Request URLs (verbatim f-strings from src/main.py). -/

/-- src/main.py:114. -/
def priceUrl (coin_id : String) : String :=
  "https://api.coingecko.com/api/v3/simple/price?ids=" ++ coin_id ++ "&vs_currencies=eur"

/-- src/main.py:36. -/
def ohlcUrl (coin_id : String) (days : Nat) : String :=
  "https://api.coingecko.com/api/v3/coins/" ++ coin_id ++ "/ohlc?vs_currency=eur&days="
    ++ toString days

/-- Interpolation of an optional secret into an f-string: Python renders
`None` as the four letters `None`. -/
def optStr : Option String → String
  | none => "None"
  | some s => s

/-- src/main.py:139. -/
def newsUrl (coin : String) (apiKey : Option String) : String :=
  "https://newsapi.org/v2/everything?q=" ++ coin
    ++ "&sortBy=publishedAt&pageSize=5&language=de&apiKey=" ++ optStr apiKey

/-! Handlers. -/

/-- src/main.py:104-128: the `/preis` handler `get_price`.

The `try` block covers everything; exception routing follows the two
`except` clauses in source order:
* `except (IndexError, ValueError)` (line 124) catches the missing-argument
  `IndexError` from `context.args[0]` and any `ValueError` — including
  `requests.exceptions.JSONDecodeError` from `response.json()`, which
  subclasses `ValueError` and is therefore caught HERE, not by the
  `RequestException` clause below it;
* `except requests.exceptions.RequestException` (line 126) catches
  connection failures from `requests.get` and the `HTTPError` raised by
  `response.raise_for_status()` on a status ≥ 400.
`KeyError` / `TypeError` from `data[coin_id]['eur']` match neither clause
and escape the handler. -/
def get_price (args : List String) (fetch : FetchResult) : Outcome :=
  match args with
  | [] =>
    { replies := [.text priceUsageMsg], calls := [], escaped := none }
  | a :: _ =>
    let coin := pyLower a
    match SUPPORTED_COINS.lookup coin with
    | none => { replies := [.text unknownCoinMsg], calls := [], escaped := none }
    | some coin_id =>
      let url := priceUrl coin_id
      match fetch with
      | .transportError =>
        { replies := [.text priceFetchErrorMsg], calls := [url], escaped := none }
      | .response status body =>
        if 400 ≤ status then
          { replies := [.text priceFetchErrorMsg], calls := [url], escaped := none }
        else
          match body with
          | none =>
            { replies := [.text priceUsageMsg], calls := [url], escaped := none }
          | some data =>
            match pySubscript data coin_id with
            | .error e => { replies := [], calls := [url], escaped := some e }
            | .ok inner =>
              match pySubscript inner "eur" with
              | .error e => { replies := [], calls := [url], escaped := some e }
              | .ok price =>
                { replies := [.text (priceReplyMsg coin price)], calls := [url],
                  escaped := none }

/-- src/main.py:152-155: the article-formatting loop of `get_news`.
`article['title']` / `article['url']` raise `KeyError` on a dict lacking
the key and `TypeError` on a non-dict element; either escapes the handler. -/
def formatArticles : List Json → Except PyExc String
  | [] => .ok ""
  | a :: rest => do
    let t ← pySubscript a "title"
    let u ← pySubscript a "url"
    let tail ← formatArticles rest
    .ok ("▪️ [" ++ pyStr t ++ "](" ++ pyStr u ++ ")\n" ++ tail)

/-- src/main.py:131-164: the `/nachrichten` handler `get_news`.

Exception routing is identical to `get_price` (same two `except` clauses).
Additionally `data.get("articles", [])` raises `AttributeError` when the
parsed body is not a dict, and iterating a truthy non-list `articles`
value (or subscripting its elements) raises `TypeError`; neither is
caught. -/
def get_news (apiKey : Option String) (args : List String) (fetch : FetchResult) : Outcome :=
  match args with
  | [] =>
    { replies := [.text newsUsageMsg], calls := [], escaped := none }
  | a :: _ =>
    let coin := pyLower a
    match SUPPORTED_COINS.lookup coin with
    | none => { replies := [.text unknownCoinMsg], calls := [], escaped := none }
    | some _ =>
      let url := newsUrl coin apiKey
      match fetch with
      | .transportError =>
        { replies := [.text newsFetchErrorMsg], calls := [url], escaped := none }
      | .response status body =>
        if 400 ≤ status then
          { replies := [.text newsFetchErrorMsg], calls := [url], escaped := none }
        else
          match body with
          | none =>
            { replies := [.text newsUsageMsg], calls := [url], escaped := none }
          | some data =>
            match data with
            | .obj fs =>
              let articles := (fs.lookup "articles").getD (.arr [])
              if pyTruthy articles then
                match articles with
                | .arr items =>
                  match formatArticles items with
                  | .ok listing =>
                    { replies := [.text (newsHeaderMsg coin ++ listing)], calls := [url],
                      escaped := none }
                  | .error e => { replies := [], calls := [url], escaped := some e }
                | _ => { replies := [], calls := [url], escaped := some .typeError }
              else
                { replies := [.text (noNewsMsg coin)], calls := [url], escaped := none }
            | _ => { replies := [], calls := [url], escaped := some .attributeError }

/-! Chart pipeline. -/

/-- Parsing of one OHLC row by `pd.DataFrame(data, columns=[...])`
(src/main.py:42): a five-element `[ts_ms, open, high, low, close]` array.
Any other shape makes the DataFrame constructor raise; pandas' failure
modes are collapsed to `ValueError`. -/
def parseRow : Json → Except PyExc OhlcRow
  | .arr [.num t, .num o, .num h, .num l, .num c] => .ok ⟨t, o, h, l, c⟩
  | _ => .error .valueError

/-- Parsing of the whole OHLC payload (src/main.py:42): a JSON array of
rows.  An empty array yields an empty DataFrame (no error). -/
def parseOhlc : Json → Except PyExc (List OhlcRow)
  | .arr xs => xs.mapM parseRow
  | _ => .error .valueError

/-- The data columns of the frame after `set_index('timestamp')`
(src/main.py:42-44). -/
def dataCols : List String := ["open", "high", "low", "close"]

/-- src/main.py:33-48: `get_historical_data`.  Returns the issued URLs and
either the resulting frame or the exception escaping the helper.  The one
`except requests.exceptions.RequestException` clause (line 46) catches the
connection failure, the `raise_for_status` `HTTPError`, and
`JSONDecodeError` from `response.json()` (a `RequestException` subclass),
and returns `None` in each case.  A payload pandas cannot shape raises out
of the helper into the caller. -/
def get_historical_data (coin_id : String) (days : Nat) (fetch : FetchResult) :
    List String × Except PyExc (Option DataFrame) :=
  let url := ohlcUrl coin_id days
  match fetch with
  | .transportError => ([url], .ok none)
  | .response status body =>
    if 400 ≤ status then ([url], .ok none)
    else
      match body with
      | none => ([url], .ok none)
      | some data =>
        match parseOhlc data with
        | .ok rows => ([url], .ok (some { rows := rows, cols := dataCols }))
        | .error e => ([url], .error e)

/-- The three columns `df.ta.macd(close='close', fast=12, slow=26,
signal=9, append=True)` appends in place (src/main.py:57). -/
def macdCols : List String := ["MACD_12_26_9", "MACDh_12_26_9", "MACDs_12_26_9"]

/-- The column `df.ta.rsi(close='close', length=14, append=True)` appends
in place (src/main.py:58). -/
def rsiCols : List String := ["RSI_14"]

/-- src/main.py:51-86: `generate_chart`.  Returns the post-call state of
the caller's DataFrame together with the render result: the image, `none`
for a `None`/empty input frame (lines 53-54), or the exception the
function raises.

The two indicator calls (lines 57-58) mutate the frame in place only when
pandas_ta's minimum-length gate passes: `ta.macd` runs
`verify_series(close, max(fast, slow, signal))` and returns `None` —
appending nothing — when the series has fewer than `max(12, 26, 9) = 26`
rows, and `ta.rsi` does the same below `length = 14` rows.  When the MACD
columns were not appended, the plot construction at line 63 then raises
`KeyError` on `df['MACDh_12_26_9']` (after the RSI call already ran, so an
RSI-only mutation can persist); the exception leaves `generate_chart` and
is caught by the caller's `except` clauses. -/
def generate_chart (df : Option DataFrame) (coin_name : String) :
    Option DataFrame × Except PyExc (Option ChartImage) :=
  match df with
  | none => (none, .ok none)
  | some d =>
    if d.rows.isEmpty then (some d, .ok none)
    else
      let d1 : DataFrame :=
        if 26 ≤ d.rows.length then { d with cols := d.cols ++ macdCols } else d
      let d2 : DataFrame :=
        if 14 ≤ d.rows.length then { d1 with cols := d1.cols ++ rsiCols } else d1
      if 26 ≤ d.rows.length then
        (some d2, .ok (some { frame := d2, title := "Kurschart für " ++ pyCapitalize coin_name }))
      else
        (some d2, .error .keyError)

/-- src/main.py:167-204: the `/chart` handler.

The whole body sits in a `try` with two `except` clauses:
`except (IndexError, ValueError)` (line 200) and `except Exception`
(line 202), so every exception raised inside — including anything
`get_historical_data` lets through or the render step raises — is caught;
no exception escapes this handler. -/
def chart (args : List String) (fetch : FetchResult) : Outcome :=
  match args with
  | [] =>
    { replies := [.text chartUsageMsg], calls := [], escaped := none }
  | a :: _ =>
    let coin := pyLower a
    match SUPPORTED_COINS.lookup coin with
    | none => { replies := [.text unknownCoinMsg], calls := [], escaped := none }
    | some coin_id =>
      let ack := Reply.text (chartWaitMsg coin)
      match get_historical_data coin_id 90 fetch with
      | (calls, .error e) =>
        if e = .indexError || e = .valueError then
          { replies := [ack, .text chartUsageMsg], calls := calls, escaped := none }
        else
          { replies := [ack, .text chartGenericErrorMsg], calls := calls, escaped := none }
      | (calls, .ok df) =>
        match df with
        | none => { replies := [ack, .text chartNoDataMsg], calls := calls, escaped := none }
        | some d =>
          if d.rows.isEmpty then
            { replies := [ack, .text chartNoDataMsg], calls := calls, escaped := none }
          else
            match generate_chart (some d) coin with
            | (_, .error e) =>
              if e = .indexError || e = .valueError then
                { replies := [ack, .text chartUsageMsg], calls := calls, escaped := none }
              else
                { replies := [ack, .text chartGenericErrorMsg], calls := calls,
                  escaped := none }
            | (_, .ok (some img)) =>
              { replies := [ack, .photo img (chartCaptionMsg coin)], calls := calls,
                escaped := none }
            | (_, .ok none) =>
              { replies := [ack, .text chartRenderErrorMsg], calls := calls, escaped := none }

/-! Startup. -/

/-- The process environment: the two secrets read at module load
(src/main.py:12-13). -/
structure Env where
  telegramToken : Option String
  newsApiKey : Option String

/-- src/main.py:209-221: `main`.  Returns `true` iff
`application.run_polling()` (line 221) is reached.  The function consults
only `TELEGRAM_TOKEN`; `NEWS_API_KEY` is never read at startup.  The
`Application` builder is the external messaging SDK; modelled from the
spec: constructing it with a missing token is startup-fatal, so polling
starts exactly when the token is present. -/
def mainStartsPolling (env : Env) : Bool :=
  env.telegramToken.isSome

/-! Helper lemmas. -/

/-- A name outside the three supported ones fails the registry lookup. -/
theorem lookup_eq_none_of_unsupported (x : String)
    (h1 : x ≠ "bitcoin") (h2 : x ≠ "ethereum") (h3 : x ≠ "solana") :
    SUPPORTED_COINS.lookup x = none := by
  have b1 : (x == "bitcoin") = false := beq_eq_false_iff_ne.mpr h1
  have b2 : (x == "ethereum") = false := beq_eq_false_iff_ne.mpr h2
  have b3 : (x == "solana") = false := beq_eq_false_iff_ne.mpr h3
  simp [SUPPORTED_COINS, List.lookup, b1, b2, b3]

/-- A successful registry lookup pins the name to one of the three
supported coins. -/
theorem supported_cases (x : String) (cid : String)
    (h : SUPPORTED_COINS.lookup x = some cid) :
    x = "bitcoin" ∨ x = "ethereum" ∨ x = "solana" := by
  by_cases h1 : x = "bitcoin"
  · exact Or.inl h1
  by_cases h2 : x = "ethereum"
  · exact Or.inr (Or.inl h2)
  by_cases h3 : x = "solana"
  · exact Or.inr (Or.inr h3)
  rw [lookup_eq_none_of_unsupported x h1 h2 h3] at h
  exact Option.noConfusion h

/-! Claim theorems. -/

/-- C6: every parameterized handler invoked with an empty argument list
replies with its usage-hint message and issues zero HTTP calls. -/
theorem empty_args_usage_hint (fetch : FetchResult) (apiKey : Option String) :
    get_price [] fetch = { replies := [.text priceUsageMsg], calls := [], escaped := none }
  ∧ get_news apiKey [] fetch = { replies := [.text newsUsageMsg], calls := [], escaped := none }
  ∧ chart [] fetch = { replies := [.text chartUsageMsg], calls := [], escaped := none } :=
  ⟨rfl, rfl, rfl⟩

/-- C5: for every coin argument whose lower-casing is none of bitcoin,
ethereum, solana, each of the three parameterized handlers replies with the
unknown-coin message and issues zero HTTP calls. -/
theorem unknown_coin_no_calls (a : String) (rest : List String) (fetch : FetchResult)
    (apiKey : Option String)
    (h1 : pyLower a ≠ "bitcoin") (h2 : pyLower a ≠ "ethereum") (h3 : pyLower a ≠ "solana") :
    get_price (a :: rest) fetch
      = { replies := [.text unknownCoinMsg], calls := [], escaped := none }
  ∧ get_news apiKey (a :: rest) fetch
      = { replies := [.text unknownCoinMsg], calls := [], escaped := none }
  ∧ chart (a :: rest) fetch
      = { replies := [.text unknownCoinMsg], calls := [], escaped := none } := by
  have hl := lookup_eq_none_of_unsupported (pyLower a) h1 h2 h3
  refine ⟨?_, ?_, ?_⟩ <;> simp [get_price, get_news, chart, hl]

/-- C5 witness: the unsupported coin `dogecoin` is rejected without any
HTTP call by all three handlers. -/
theorem unknown_coin_no_calls_witness :
    get_price ["dogecoin"] .transportError
      = { replies := [.text unknownCoinMsg], calls := [], escaped := none }
  ∧ get_news none ["dogecoin"] .transportError
      = { replies := [.text unknownCoinMsg], calls := [], escaped := none }
  ∧ chart ["dogecoin"] .transportError
      = { replies := [.text unknownCoinMsg], calls := [], escaped := none } :=
  unknown_coin_no_calls "dogecoin" [] .transportError none
    (by decide) (by decide) (by decide)

/-- C9: the price handler is deterministic in the upstream response — two
invocations with the same argument list and identical upstream responses
produce identical reply text. -/
theorem price_deterministic (args : List String) (f g : FetchResult) (h : f = g) :
    (get_price args f).replies = (get_price args g).replies := by
  rw [h]

/-- C1 counterexample: the price handler does NOT catch every exception
raised during the external call or reply formatting.  On a success
response whose JSON body is the empty object, `data[coin_id]` raises
`KeyError`; neither `except (IndexError, ValueError)` nor
`except requests.exceptions.RequestException` matches, so the exception
escapes the handler to the transport layer and no failure message is
sent. -/
theorem price_keyError_escapes :
    get_price ["bitcoin"] (.response 200 (some (.obj [])))
      = { replies := [], calls := [priceUrl "bitcoin"], escaped := some .keyError } :=
  rfl

/-- C1 amended: only the chart handler has a catch-all
(`except Exception`, src/main.py:202); it never lets an exception escape
to the transport layer for any argument list and any upstream response.
The price and news handlers catch only missing-argument/`ValueError` and
transport exceptions, so an unexpected body shape can escape them. -/
theorem chart_never_escapes (args : List String) (fetch : FetchResult) :
    (chart args fetch).escaped = none := by
  match args with
  | [] => rfl
  | a :: rest =>
    simp only [chart]
    cases h : SUPPORTED_COINS.lookup (pyLower a) with
    | none => rfl
    | some cid =>
      simp only []
      rcases hg : get_historical_data cid 90 fetch with ⟨calls, res⟩
      cases res with
      | error e =>
        by_cases he : e = .indexError || e = .valueError <;> simp [he]
      | ok df =>
        cases df with
        | none => rfl
        | some d =>
          by_cases hd : d.rows.isEmpty
          · simp [hd]
          · rcases hgen : generate_chart (some d) (pyLower a) with ⟨d2, res2⟩
            cases res2 with
            | error e =>
              by_cases he : e = .indexError || e = .valueError <;> simp [hd, hgen, he]
            | ok o => cases o <;> simp [hd, hgen]

/-- C2 counterexample: an environment with the messaging token present but
the news-API key absent still starts polling — the absence of the news-API
key is not startup-fatal. -/
theorem polls_without_news_key :
    mainStartsPolling { telegramToken := some "token", newsApiKey := none } = true :=
  rfl

/-- C2 amended: startup consults only the messaging-platform token —
polling starts iff it is present, regardless of the news-API key; a news
request issued with the key absent interpolates `None` into the query and
surfaces the upstream-failure reply at request time instead. -/
theorem startup_ignores_news_key (t : String) (k : Option String) :
    mainStartsPolling { telegramToken := none, newsApiKey := k } = false
  ∧ mainStartsPolling { telegramToken := some t, newsApiKey := k } = true
  ∧ get_news none ["bitcoin"] (.response 401 none)
      = { replies := [.text newsFetchErrorMsg],
          calls := [newsUrl "bitcoin" none], escaped := none } :=
  ⟨rfl, rfl, rfl⟩

/-- C3: `get_historical_data` keeps the failure outcome and the
empty-payload outcome distinct for the caller — transport failure or a
non-success status yields `None`, while a success response whose payload
is the empty array yields an (empty, non-`None`) DataFrame, and the two
results differ. -/
theorem historical_error_vs_empty (coin_id : String) (days : Nat) :
    (get_historical_data coin_id days .transportError).2 = .ok none
  ∧ (∀ s b, 400 ≤ s → (get_historical_data coin_id days (.response s b)).2 = .ok none)
  ∧ (∀ s, s < 400 →
      (get_historical_data coin_id days (.response s (some (.arr [])))).2
        = .ok (some { rows := [], cols := dataCols }))
  ∧ (Except.ok (ε := PyExc) (none : Option DataFrame)
      ≠ .ok (some { rows := [], cols := dataCols })) := by
  refine ⟨rfl, ?_, ?_, by simp⟩
  · intro s b h
    simp [get_historical_data, h]
  · intro s h
    simp [get_historical_data, Nat.not_le.mpr h, parseOhlc, List.mapM.loop, pure, Except.pure]

/-- C3 witness: a 500 response yields `None` while an empty payload on a
200 response yields the empty DataFrame. -/
theorem historical_error_vs_empty_witness :
    (get_historical_data "bitcoin" 90 (.response 500 none)).2 = .ok none
  ∧ (get_historical_data "bitcoin" 90 (.response 200 (some (.arr [])))).2
      = .ok (some { rows := [], cols := dataCols }) :=
  ⟨(historical_error_vs_empty "bitcoin" 90).2.1 500 none (by decide),
    (historical_error_vs_empty "bitcoin" 90).2.2.1 200 (by decide)⟩

/-- C4 counterexample: a malformed (unparseable) body on a success status
is NOT surfaced as the generic retry-later message: `response.json()`
raises `JSONDecodeError`, a `ValueError`, which the first `except` clause
catches, producing the missing-argument usage hint instead. -/
theorem malformed_body_not_retry_later :
    get_price ["bitcoin"] (.response 200 none)
      = { replies := [.text priceUsageMsg], calls := [priceUrl "bitcoin"], escaped := none }
  ∧ priceUsageMsg ≠ priceFetchErrorMsg :=
  ⟨rfl, by decide⟩

/-- C4 amended: the price handler replies with the generic retry-later
message exactly on transport failure or non-success HTTP status.  A
malformed body is not converted to that message: an unparseable body
yields the missing-argument usage reply (a different string), and a parsed
body lacking the expected coin / eur keys raises an exception that escapes
with no reply at all.  In every failure case no price reply is sent. -/
theorem price_failure_paths (a : String) (rest : List String) (cid : String)
    (h : SUPPORTED_COINS.lookup (pyLower a) = some cid) :
    get_price (a :: rest) .transportError
      = { replies := [.text priceFetchErrorMsg], calls := [priceUrl cid], escaped := none }
  ∧ (∀ s b, 400 ≤ s → get_price (a :: rest) (.response s b)
      = { replies := [.text priceFetchErrorMsg], calls := [priceUrl cid], escaped := none })
  ∧ (∀ s, s < 400 → get_price (a :: rest) (.response s none)
      = { replies := [.text priceUsageMsg], calls := [priceUrl cid], escaped := none })
  ∧ (∀ s data e, s < 400 → pySubscript data cid = .error e →
      get_price (a :: rest) (.response s (some data))
        = { replies := [], calls := [priceUrl cid], escaped := some e })
  ∧ (∀ s data inner e, s < 400 → pySubscript data cid = .ok inner →
      pySubscript inner "eur" = .error e →
      get_price (a :: rest) (.response s (some data))
        = { replies := [], calls := [priceUrl cid], escaped := some e })
  ∧ priceUsageMsg ≠ priceFetchErrorMsg := by
  refine ⟨?_, ?_, ?_, ?_, ?_, by decide⟩
  · simp [get_price, h]
  · intro s b hs
    simp [get_price, h, hs]
  · intro s hs
    simp [get_price, h, Nat.not_le.mpr hs]
  · intro s data e hs he
    simp [get_price, h, Nat.not_le.mpr hs, he]
  · intro s data inner e hs hi he
    simp [get_price, h, Nat.not_le.mpr hs, hi, he]

/-- C4 witness: on a 502 response the retry-later reply is sent; on a 200
response whose body is the empty JSON object a `KeyError` escapes with no
reply. -/
theorem price_failure_paths_witness :
    get_price ["bitcoin"] (.response 502 none)
      = { replies := [.text priceFetchErrorMsg], calls := [priceUrl "bitcoin"],
          escaped := none }
  ∧ get_price ["bitcoin"] (.response 200 (some (.obj [("x", .null)])))
      = { replies := [], calls := [priceUrl "bitcoin"], escaped := some .keyError } :=
  ⟨(price_failure_paths "bitcoin" [] "bitcoin" rfl).2.1 502 none (by decide),
    (price_failure_paths "bitcoin" [] "bitcoin" rfl).2.2.2.1 200 (.obj [("x", .null)])
      .keyError (by decide) rfl⟩

/-- C9 witness: two identical invocations of the price handler on a
concrete response yield the same replies. -/
theorem price_deterministic_witness :
    (get_price ["bitcoin"]
        (.response 200 (some (.obj [("bitcoin", .obj [("eur", .num 61234)])])))).replies
      = (get_price ["bitcoin"]
        (.response 200 (some (.obj [("bitcoin", .obj [("eur", .num 61234)])])))).replies :=
  price_deterministic ["bitcoin"] _ _ rfl

/-- C7: when the historical fetch returns an empty OHLC series, the chart
handler replies with the data-unavailable message and no photo is sent;
and the renderer applied to a `None` or empty frame returns the explicit
empty result instead of an image. -/
theorem empty_series_no_render (a : String) (rest : List String) (cid : String) (s : Nat)
    (h : SUPPORTED_COINS.lookup (pyLower a) = some cid) (hs : s < 400) :
    chart (a :: rest) (.response s (some (.arr [])))
      = { replies := [.text (chartWaitMsg (pyLower a)), .text chartNoDataMsg],
          calls := [ohlcUrl cid 90], escaped := none }
  ∧ (∀ c, generate_chart none c = (none, .ok none))
  ∧ (∀ c d, d.rows = [] → generate_chart (some d) c = (some d, .ok none)) := by
  refine ⟨?_, fun c => rfl, ?_⟩
  · simp [chart, h, get_historical_data, Nat.not_le.mpr hs, parseOhlc, List.mapM.loop,
      pure, Except.pure]
  · intro c d hd
    simp [generate_chart, hd]

/-- C7 witness: `chart bitcoin` against a 200 response with an empty OHLC
array yields the data-unavailable reply, and the renderer maps the empty
frame to no image. -/
theorem empty_series_no_render_witness :
    chart ["bitcoin"] (.response 200 (some (.arr [])))
      = { replies := [.text (chartWaitMsg (pyLower "bitcoin")), .text chartNoDataMsg],
          calls := [ohlcUrl "bitcoin" 90], escaped := none }
  ∧ generate_chart (some { rows := [], cols := dataCols }) "bitcoin"
      = (some { rows := [], cols := dataCols }, .ok none) :=
  ⟨(empty_series_no_render "bitcoin" [] "bitcoin" 200 rfl (by decide)).1,
    (empty_series_no_render "bitcoin" [] "bitcoin" 200 rfl (by decide)).2.2 "bitcoin"
      { rows := [], cols := dataCols } rfl⟩

/-- C8: when the news upstream reports zero matching articles (the
`articles` field absent or the empty array), the news handler replies with
exactly the no-articles message; the upstream-failure path replies with
the generic failure message instead, and for every reachable coin the two
messages differ. -/
theorem zero_articles_distinct (a : String) (rest : List String) (cid : String)
    (apiKey : Option String) (s : Nat) (fs : List (String × Json))
    (h : SUPPORTED_COINS.lookup (pyLower a) = some cid) (hs : s < 400)
    (hart : fs.lookup "articles" = none ∨ fs.lookup "articles" = some (.arr [])) :
    get_news apiKey (a :: rest) (.response s (some (.obj fs)))
      = { replies := [.text (noNewsMsg (pyLower a))],
          calls := [newsUrl (pyLower a) apiKey], escaped := none }
  ∧ get_news apiKey (a :: rest) .transportError
      = { replies := [.text newsFetchErrorMsg],
          calls := [newsUrl (pyLower a) apiKey], escaped := none }
  ∧ noNewsMsg (pyLower a) ≠ newsFetchErrorMsg := by
  refine ⟨?_, by simp [get_news, h], ?_⟩
  · rcases hart with hart | hart <;>
      simp [get_news, h, Nat.not_le.mpr hs, hart, pyTruthy]
  · rcases supported_cases (pyLower a) cid h with hx | hx | hx <;>
      rw [hx] <;> decide

/-- C8 witness: `news solana` against a 200 response with an empty
`articles` array yields exactly the no-articles message, and a transport
failure yields the distinct generic failure message. -/
theorem zero_articles_distinct_witness :
    get_news (some "k") ["solana"] (.response 200 (some (.obj [("articles", .arr [])])))
      = { replies := [.text (noNewsMsg (pyLower "solana"))],
          calls := [newsUrl (pyLower "solana") (some "k")], escaped := none }
  ∧ noNewsMsg (pyLower "solana") ≠ newsFetchErrorMsg :=
  ⟨(zero_articles_distinct "solana" [] "solana" (some "k") 200 [("articles", .arr [])]
      rfl (by decide) (Or.inr rfl)).1,
    (zero_articles_distinct "solana" [] "solana" (some "k") 200 [("articles", .arr [])]
      rfl (by decide) (Or.inr rfl)).2.2⟩

/-- C10 counterexample: the renderer does NOT mutate every non-empty input
frame.  On a one-row frame both indicator calls fail pandas_ta's
minimum-length gate and append nothing, so the caller's frame is unchanged
after the call (and the plot construction raises `KeyError` on the absent
MACD column instead of rendering). -/
theorem short_frame_not_mutated :
    generate_chart (some { rows := [⟨1, 2, 3, 4, 5⟩], cols := dataCols }) "bitcoin"
      = (some { rows := [⟨1, 2, 3, 4, 5⟩], cols := dataCols }, .error .keyError) :=
  rfl

/-- C10 amended: the renderer is not pure in its frame argument, but only
for series long enough for the indicators — for every input frame of at
least 26 rows the two `append=True` calls (src/main.py:57-58) append the
three MACD columns and the RSI column in place before plotting, so the
frame differs afterwards from what the fetch step produced and the image
is built from the mutated frame.  Below 26 rows `ta.macd` appends nothing
and the plot construction raises `KeyError`: with 14 to 25 rows the frame
still gains the RSI column before the raise, and below 14 rows it is left
unchanged. -/
theorem generate_chart_mutation_regions (coin : String) :
    (∀ d : DataFrame, 26 ≤ d.rows.length →
        generate_chart (some d) coin
          = (some { d with cols := d.cols ++ macdCols ++ rsiCols },
              .ok (some { frame := { d with cols := d.cols ++ macdCols ++ rsiCols },
                          title := "Kurschart für " ++ pyCapitalize coin }))
      ∧ (generate_chart (some d) coin).1 ≠ some d)
  ∧ (∀ d : DataFrame, 14 ≤ d.rows.length → d.rows.length < 26 →
      generate_chart (some d) coin
        = (some { d with cols := d.cols ++ rsiCols }, .error .keyError))
  ∧ (∀ d : DataFrame, d.rows ≠ [] → d.rows.length < 14 →
      generate_chart (some d) coin = (some d, .error .keyError)) := by
  refine ⟨?_, ?_, ?_⟩
  · intro d h26
    have h14 : 14 ≤ d.rows.length := by omega
    have hne : d.rows.isEmpty = false := by
      cases hr : d.rows with
      | nil => rw [hr] at h26; exact absurd h26 (by decide)
      | cons x xs => rfl
    constructor
    · simp [generate_chart, hne, h26, h14]
    · simp only [generate_chart, hne, Bool.false_eq_true, if_false, if_pos h26, if_pos h14]
      intro he
      have hcols : d.cols ++ macdCols ++ rsiCols = d.cols := by
        have := Option.some.inj he
        exact congrArg DataFrame.cols this
      have hlen := congrArg List.length hcols
      simp [macdCols, rsiCols] at hlen
  · intro d h14 hlt
    have h26 : ¬ 26 ≤ d.rows.length := by omega
    have hne : d.rows.isEmpty = false := by
      cases hr : d.rows with
      | nil => rw [hr] at h14; exact absurd h14 (by decide)
      | cons x xs => rfl
    simp [generate_chart, hne, h14, h26]
  · intro d hne' hlt
    have h14 : ¬ 14 ≤ d.rows.length := by omega
    have h26 : ¬ 26 ≤ d.rows.length := by omega
    have hne : d.rows.isEmpty = false := by
      cases hr : d.rows with
      | nil => exact absurd hr hne'
      | cons x xs => rfl
    simp [generate_chart, hne, h14, h26]

/-- C10 amended witness: a concrete 26-row frame is mutated in place — its
post-call column list carries the four appended indicator columns and
differs from the input — while a concrete 13-row frame is left unchanged. -/
theorem generate_chart_mutation_regions_witness :
    generate_chart
        (some { rows := List.replicate 26 ⟨1, 2, 3, 4, 5⟩, cols := dataCols }) "bitcoin"
      = (some { rows := List.replicate 26 ⟨1, 2, 3, 4, 5⟩,
                cols := dataCols ++ macdCols ++ rsiCols },
          .ok (some { frame := { rows := List.replicate 26 ⟨1, 2, 3, 4, 5⟩,
                                 cols := dataCols ++ macdCols ++ rsiCols },
                      title := "Kurschart für " ++ pyCapitalize "bitcoin" }))
  ∧ (generate_chart
        (some { rows := List.replicate 26 ⟨1, 2, 3, 4, 5⟩, cols := dataCols }) "bitcoin").1
      ≠ some { rows := List.replicate 26 ⟨1, 2, 3, 4, 5⟩, cols := dataCols }
  ∧ generate_chart
        (some { rows := List.replicate 13 ⟨1, 2, 3, 4, 5⟩, cols := dataCols }) "bitcoin"
      = (some { rows := List.replicate 13 ⟨1, 2, 3, 4, 5⟩, cols := dataCols },
          .error .keyError) :=
  ⟨((generate_chart_mutation_regions "bitcoin").1
      { rows := List.replicate 26 ⟨1, 2, 3, 4, 5⟩, cols := dataCols } (by decide)).1,
    ((generate_chart_mutation_regions "bitcoin").1
      { rows := List.replicate 26 ⟨1, 2, 3, 4, 5⟩, cols := dataCols } (by decide)).2,
    (generate_chart_mutation_regions "bitcoin").2.2
      { rows := List.replicate 13 ⟨1, 2, 3, 4, 5⟩, cols := dataCols }
      (by decide) (by decide)⟩

end CryptoBot
